import Mathlib

/-!
Verification of the zumi database layer (package `database`) against its
natural-language specification.  The Go sources under `database/` are
shallowly embedded below: pure string-building code becomes Lean functions
on `String`, the `pgx` driver is abstracted as an oracle supplying query
results, and the transaction / connection lifecycle becomes an explicit
trace-producing step function.  Go `int`/`int64` values are modelled as
`Int`; Go integer division truncates toward zero, which is `Int.tdiv`.
-/

namespace Zumi

/-- Go `strings.Split` restricted to a one-character separator, on the
character list of the string.  `strings.Split("", sep)` yields `[""]` in Go,
hence the base case. -/
def splitChar (sep : Char) : List Char → List (List Char)
  | [] => [[]]
  | c :: cs =>
    let r := splitChar sep cs
    if c = sep then [] :: r
    else
      match r with
      | [] => [[c]]
      | h :: t => (c :: h) :: t

/-- Go `strings.Split(s, sep)` for a one-character separator. -/
def goSplit (s : String) (sep : Char) : List String :=
  (splitChar sep s.data).map (fun l => String.mk l)

/-- Go `strings.Join(parts, sep)`. -/
def goJoin (sep : String) : List String → String
  | [] => ""
  | [s] => s
  | s :: rest => s ++ sep ++ goJoin sep rest

/-- Opaque model of a Go `any` value handed to the driver as a positional
query argument: an int, a string, or some other caller-supplied value. -/
inductive DBValue where
  | vint : Int → DBValue
  | vstr : String → DBValue
  | vother : Nat → DBValue
deriving DecidableEq, Repr

/-- `PageRequest` from `database/service.go`. -/
structure PageRequest where
  page : Int
  size : Int
  sort : List String
deriving DecidableEq, Repr

/-- `Page[T]` from `database/service.go`. -/
structure Page (ρ : Type) where
  content : List ρ
  pageable : PageRequest
  totalElements : Int
  totalPages : Int
  number : Int
  size : Int
  numberOfElements : Int
  isLast : Bool
  isFirst : Bool
  isEmpty : Bool
deriving DecidableEq, Repr

/-- One iteration of the sort-directive loop in `SelectRowsPageable`
(`database/service.go`): an empty directive is skipped; a directive that
splits on the first comma into a column and a trailing asc or desc token
becomes a column-direction pair; anything else is passed through verbatim.
The ORDER BY keyword is emitted only when the directive index is zero. -/
def addSortDirective (q : String) (i : Nat) (sort : String) : String :=
  if sort = "" then q
  else
    match goSplit sort ',' with
    | [col, dir] =>
      if dir = "asc" ∨ dir = "desc" then
        if i = 0 then q ++ " ORDER BY " ++ col ++ " " ++ dir
        else q ++ ", " ++ col ++ " " ++ dir
      else
        if i = 0 then q ++ " ORDER BY " ++ sort
        else q ++ ", " ++ sort
    | _ =>
      if i = 0 then q ++ " ORDER BY " ++ sort
      else q ++ ", " ++ sort

/-- The whole sorting loop of `SelectRowsPageable`: a left fold of
`addSortDirective` over the directives paired with their indices. -/
def addSorting (q : String) (sorts : List String) : String :=
  (sorts.enum).foldl (fun acc p => addSortDirective acc p.1 p.2) q

/-- The content query built by `SelectRowsPageable`: the sorted query with
the literal pagination clause appended (the placeholders are hard-coded as
dollar-one and dollar-two in the source). -/
def pagedQuery (query : String) (sorts : List String) : String :=
  addSorting query sorts ++ " LIMIT $1 OFFSET $2"

/-- The argument list passed to the driver by `SelectRowsPageable`: the
caller-supplied arguments with the limit (page size) and the offset
(page index times page size) appended. -/
def pageArgs (args : List DBValue) (pr : PageRequest) : List DBValue :=
  args ++ [DBValue.vint pr.size, DBValue.vint (pr.page * pr.size)]

/-- The count query built by `SelectRowsPageable` from the (already
paginated) content query. -/
def countQueryOf (q : String) : String :=
  "SELECT COUNT(*) FROM (" ++ q ++ ") AS count_query"

/-- Abstraction of the pgx driver as seen by `SelectRowsPageable`: `queryRows`
models `dbtx.Query` followed by `pgx.CollectRows` (decoded rows or an error),
`queryCount` models `dbtx.QueryRow(...).Scan` of the single count scalar. -/
structure PgOracle (ρ : Type) where
  queryRows : String → List DBValue → Except String (List ρ)
  queryCount : String → List DBValue → Except String Int

/-- `SelectRowsPageable` from `database/service.go`.  Note that the count
query wraps the content query after the LIMIT/OFFSET clause was appended and
is executed with the same argument list including the limit and offset
values, and that Go faults on a zero page size (the `Int.tdiv` model instead
returns zero there; no claim is settled at size zero). -/
def SelectRowsPageable (ora : PgOracle ρ) (pr : PageRequest) (query : String)
    (args : List DBValue) : Except String (Page ρ) :=
  let q := pagedQuery query pr.sort
  let args2 := pageArgs args pr
  match ora.queryRows q args2 with
  | .error e => .error ("failed to execute query: " ++ e)
  | .ok results =>
    match ora.queryCount (countQueryOf q) args2 with
    | .error e => .error ("failed to get total elements: " ++ e)
    | .ok totalElements =>
      let totalPages := Int.tdiv (totalElements + pr.size - 1) pr.size
      .ok
        { content := results
          pageable := pr
          totalElements := totalElements
          totalPages := totalPages
          number := pr.page
          size := pr.size
          numberOfElements := (results.length : Int)
          isLast := decide (pr.page ≥ totalPages - 1)
          isFirst := decide (pr.page = 0)
          isEmpty := decide (results.length = 0) }

/-- Model of one struct field as seen by the reflection code in
`database/repo.go`: the three tags it reads (a tag that is absent is `none`;
Go `Tag.Get` then yields the empty string while `Tag.Lookup` reports
absence), plus an opaque identifier standing for the field's runtime value. -/
structure GoField where
  tableTag : Option String
  dbTag : String
  queryTag : Option String
  primaryTag : String
  value : Nat
deriving DecidableEq, Repr

/-- Go `Tag.Get("table")`: the tag text, or the empty string when absent. -/
def tableTagGet (f : GoField) : String := f.tableTag.getD ""

/-- Go `Tag.Get("query")`: the tag text, or the empty string when absent. -/
def queryTagGet (f : GoField) : String := f.queryTag.getD ""

/-- First pass of `generateInsertQuery` (`database/repo.go`): the first
field whose table tag is present (by Lookup) supplies the table name, the
text before the first space. -/
def insertTableName (fields : List GoField) : String :=
  match fields.find? (fun f => f.tableTag.isSome) with
  | some f => (goSplit (tableTagGet f) ' ').headD ""
  | none => ""

/-- Second pass of `generateInsertQuery`: a field is mapped unless its db
tag is empty or the ignore sentinel, or it carries a query tag (by Lookup). -/
def isMappedField (f : GoField) : Bool :=
  f.dbTag ≠ "" && f.dbTag ≠ "-" && f.queryTag.isNone

/-- The mapped fields, in declaration order. -/
def insertMappedFields (fields : List GoField) : List GoField :=
  fields.filter isMappedField

/-- The `columns` slice of `generateInsertQuery`. -/
def insertColumns (fields : List GoField) : List String :=
  (insertMappedFields fields).map (fun f => f.dbTag)

/-- The `values` slice of `generateInsertQuery`. -/
def insertValues (fields : List GoField) : List Nat :=
  (insertMappedFields fields).map (fun f => f.value)

/-- The `primaryKeys` slice of `generateInsertQuery`: db tags of mapped
fields whose primary tag is the string true. -/
def insertPrimaryKeys (fields : List GoField) : List String :=
  ((insertMappedFields fields).filter (fun f => f.primaryTag = "true")).map
    (fun f => f.dbTag)

/-- The `placeholders` slice of `generateInsertQuery`. -/
def placeholdersOf (n : Nat) : List String :=
  (List.range n).map (fun i => "$" ++ toString (i + 1))

/-- The `updateSet` columns of `generateInsertQuery`: mapped columns that
are not in the primary-key map. -/
def insertUpdateSet (fields : List GoField) : List String :=
  (insertColumns fields).filter (fun c => !((insertPrimaryKeys fields).contains c))

/-- The conflict action of `generateInsertQuery`: an UPDATE SET assignment
per non-key column when any exists, otherwise DO NOTHING. -/
def doClause (fields : List GoField) : String :=
  if insertUpdateSet fields ≠ [] then
    "DO UPDATE SET " ++
      goJoin ",\n" ((insertUpdateSet fields).map (fun c => c ++ " = EXCLUDED." ++ c))
  else "DO NOTHING"

/-- The query text assembled by `generateInsertQuery`. -/
def insertQueryString (fields : List GoField) : String :=
  "INSERT INTO " ++ insertTableName fields ++ " (" ++
    goJoin ", " (insertColumns fields) ++ ")\n" ++
  "VALUES (" ++ goJoin ", " (placeholdersOf (insertColumns fields).length) ++ ")\n" ++
  "ON CONFLICT(" ++ goJoin ", " (insertPrimaryKeys fields) ++ ")\n" ++
  doClause fields

/-- `generateInsertQuery` from `database/repo.go`: fails when no table name
or no primary key was found, otherwise returns the query text and the
argument slice. -/
def generateInsertQuery (fields : List GoField) : Except String (String × List Nat) :=
  if insertTableName fields = "" then .error "missing table tag in struct"
  else if insertPrimaryKeys fields = [] then
    .error "no primary key found; use the primary tag"
  else .ok (insertQueryString fields, insertValues fields)

/-- Loop state of `generateSelectQuery` (`database/repo.go`): the collected
select clauses and the current fromClause and tableAlias variables. -/
structure SelState where
  clauses : List String
  fromClause : String
  tableAlias : String
deriving DecidableEq, Repr

/-- One iteration of the field loop in `generateSelectQuery`.  A field with
a table tag overwrites the fromClause, updates the alias when the tag has a
second space-separated part, and appends the alias wildcard when the alias
is nonempty; an ignored field is skipped; a field with a query tag appends
the expression aliased to its db tag. -/
def newAliasOf (st : SelState) (f : GoField) : String :=
  match goSplit (tableTagGet f) ' ' with
  | _ :: a :: _ => a
  | _ => st.tableAlias

def selectField (st : SelState) (f : GoField) : SelState :=
  if tableTagGet f ≠ "" then
    { clauses :=
        if newAliasOf st f ≠ "" then st.clauses ++ [newAliasOf st f ++ ".*"]
        else st.clauses
      fromClause := tableTagGet f
      tableAlias := newAliasOf st f }
  else if f.dbTag = "-" then st
  else if queryTagGet f ≠ "" then
    { st with clauses := st.clauses ++ [queryTagGet f ++ " AS " ++ f.dbTag] }
  else st

/-- The whole field loop of `generateSelectQuery`, started from empty state. -/
def selectScan (fields : List GoField) : SelState :=
  fields.foldl selectField ⟨[], "", ""⟩

/-- `generateSelectQuery` from `database/repo.go`. -/
def generateSelectQuery (fields : List GoField) : Except String String :=
  if (selectScan fields).fromClause = "" then .error "no table tag found in struct"
  else
    .ok ("SELECT\n  " ++ goJoin ",\n  " (selectScan fields).clauses ++
      "\nFROM " ++ (selectScan fields).fromClause)

/-- Transaction access mode (`pgx.TxOptions.AccessMode`). -/
inductive AccessMode where
  | readOnly
  | readWrite
deriving DecidableEq, Repr

/-- Observable transaction-control actions issued by
`runTransactionWithOpts` against the pool or the transaction handle. -/
inductive TxEvent where
  | beginTx (mode : AccessMode)
  | commit
  | rollback
deriving DecidableEq, Repr

/-- Outcome of one `runTransactionWithOpts` call: the ordered trace of
transaction-control actions it issued and its returned error, if any. -/
structure TxOutcome where
  trace : List TxEvent
  res : Option String
deriving DecidableEq, Repr

/-- `runTransactionWithOpts` from `database/service.go`.  Handles are
modelled as naturals; `fn` reports the error it returns on the handle it was
given; `beginOk` and `commitOk` model the driver outcomes of BeginTx and
Commit.  `rollbackOk` models the outcome of the deferred Rollback, whose
result the source discards, so it does not occur in the body.  The deferred
rollback is registered only after BeginTx succeeds, hence a failed begin
issues no event. -/
def runTransactionWithOpts (mode : AccessMode) (beginOk commitOk rollbackOk : Bool)
    (fn : Nat → Option String) (newHandle : Nat) (existingQ : List Nat) : TxOutcome :=
  match existingQ with
  | q :: _ => { trace := [], res := fn q }
  | [] =>
    if beginOk then
      match fn newHandle with
      | some e =>
        { trace := [.beginTx mode, .rollback]
          res := some ("transaction function failed: " ++ e) }
      | none =>
        if commitOk then { trace := [.beginTx mode, .commit, .rollback], res := none }
        else
          { trace := [.beginTx mode, .commit, .rollback]
            res := some "failed to commit transaction" }
    else { trace := [], res := some "failed to begin transaction" }

/-- Connection-manager state: the current pool, as a generation counter that
a successful `connectAndMigratePool` bumps when it replaces the pool, and
the number of times the goose migration step was invoked. -/
structure DBState where
  pool : Nat
  migrationRuns : Nat
deriving DecidableEq, Repr

/-- `connectAndMigratePool` from `database/service.go`: parse the
configuration, open a pool, run the migrations, and only then replace the
stored pool.  The boolean flags model the outcome of each step; the second
component reports success.  The migration step runs whenever parsing and
pool creation succeed. -/
def connectAndMigratePool (parseOk poolOk migrateOk : Bool) (st : DBState) :
    DBState × Bool :=
  if parseOk = false then (st, false)
  else if poolOk = false then (st, false)
  else
    let st1 : DBState := { st with migrationRuns := st.migrationRuns + 1 }
    if migrateOk = false then (st1, false)
    else ({ pool := st.pool + 1, migrationRuns := st1.migrationRuns }, true)

/-- `NewDatabase` from `database/service.go`, up to its connection step: a
fresh manager whose construction calls `connectAndMigratePool` once and
fails when that fails. -/
def newDatabase (parseOk poolOk migrateOk : Bool) : Option DBState :=
  let r := connectAndMigratePool parseOk poolOk migrateOk ⟨0, 0⟩
  if r.2 then some r.1 else none

/-- `healthCheckPool` from `database/service.go`: a successful ping leaves
the state alone; a failed ping calls `connectAndMigratePool` again (its
error is only logged). -/
def healthCheckPool (pingOk parseOk poolOk migrateOk : Bool) (st : DBState) : DBState :=
  if pingOk then st
  else (connectAndMigratePool parseOk poolOk migrateOk st).1

/-- Error taxonomy of the row collectors, following the spec names: the
not-found error (pgx ErrNoRows), a decode error, and a driver execution
error.  Go wraps these with message context; the wrapped error keeps its
category for errors.Is, which the constructors model. -/
inductive DBError where
  | notFound
  | decodeErr (msg : String)
  | execution (msg : String)
deriving DecidableEq, Repr

/-- Modelled from the spec: pgx.CollectOneRow with pgx.RowToStructByName,
which is external pgx driver code not contained in this repository's
sources.  Per the spec's selectOne contract it decodes exactly one row,
failing with the not-found error on zero rows and with a decode error on
more than one row or on a row that does not match the target type. -/
def collectOneRow (decode : σ → Except String ρ) (rows : List σ) : Except DBError ρ :=
  match rows with
  | [] => .error .notFound
  | [r] =>
    match decode r with
    | .ok v => .ok v
    | .error e => .error (.decodeErr e)
  | _ :: _ :: _ => .error (.decodeErr "expected exactly one row")

/-- `SelectRow` from `database/select.go`: run the query, then collect one
row; both failure paths wrap and propagate the underlying error.  The query
outcome (decoded rows or a driver error) is supplied by the oracle argument. -/
def SelectRow (decode : σ → Except String ρ) (queryRes : Except String (List σ)) :
    Except DBError ρ :=
  match queryRes with
  | .error e => .error (.execution ("failed to execute query: " ++ e))
  | .ok rows =>
    match collectOneRow decode rows with
    | .error e => .error e
    | .ok v => .ok v

theorem strAppendEmpty (s : String) : s ++ "" = s := by
  apply String.ext
  simp [String.data_append]

theorem strAppendAssoc (a b c : String) : a ++ b ++ c = a ++ (b ++ c) := by
  apply String.ext
  simp [String.data_append]

/-- Concatenation of a list of strings, used to describe the suffix the
sorting loop appends. -/
def concatAll : List String → String
  | [] => ""
  | s :: t => s ++ concatAll t

/-- The fragment a directive at a nonzero index contributes: nothing when
empty, otherwise a comma-prefixed fragment with no ORDER BY keyword. -/
def commaFragment (sort : String) : String :=
  if sort = "" then ""
  else
    match goSplit sort ',' with
    | [col, dir] =>
      if dir = "asc" ∨ dir = "desc" then ", " ++ col ++ " " ++ dir
      else ", " ++ sort
    | _ => ", " ++ sort

theorem addSortDirective_of_ne_zero (q : String) (i : Nat) (s : String) (h : ¬ i = 0) :
    addSortDirective q i s = q ++ commaFragment s := by
  unfold addSortDirective commaFragment
  by_cases hs : s = ""
  · simp [hs, strAppendEmpty]
  · rw [if_neg hs, if_neg hs]
    rcases hgs : goSplit s ',' with _ | ⟨col, _ | ⟨dir, _ | _⟩⟩
    · simp [hgs, h, strAppendAssoc]
    · simp [hgs, h, strAppendAssoc]
    · simp only [hgs]
      split <;> simp [h, strAppendAssoc]
    · simp [hgs, h, strAppendAssoc]

theorem foldl_sort_enumFrom (l : List String) :
    ∀ (i : Nat) (q : String), i ≠ 0 →
      List.foldl (fun acc p => addSortDirective acc p.1 p.2) q (List.enumFrom i l) =
        q ++ concatAll (l.map commaFragment) := by
  induction l with
  | nil => intro i q _; simp [concatAll, strAppendEmpty]
  | cons s t ih =>
    intro i q h
    rw [List.enumFrom_cons, List.foldl_cons, List.map_cons]
    show _ = q ++ concatAll (commaFragment s :: t.map commaFragment)
    rw [concatAll, addSortDirective_of_ne_zero q i s h, ih (i + 1) _ (by omega),
      strAppendAssoc]

/-- Claim C10: in SelectRowsPageable a sort directive that is the empty
string is skipped, and the ORDER BY keyword is only built at directive
index zero; hence when the first directive is empty, every later directive
is appended as a comma-prefixed fragment and the ORDER BY keyword is never
emitted — the appended suffix is exactly the concatenation of the comma
fragments, as in the concrete instance in the second conjunct. -/
theorem c10_empty_first_sort_directive (query : String) (rest : List String) :
    addSorting query ("" :: rest) = query ++ concatAll (rest.map commaFragment) ∧
    addSorting "SELECT * FROM books" ["", "name,desc"] =
      "SELECT * FROM books, name desc" := by
  refine ⟨?_, rfl⟩
  unfold addSorting
  rw [List.enum_cons, List.foldl_cons]
  show List.foldl _ (addSortDirective query 0 "") (List.enumFrom 1 rest) = _
  rw [show addSortDirective query 0 "" = query from rfl]
  exact foldl_sort_enumFrom rest 1 query (by omega)

/-- Claim C6: a call to runTransactionWithOpts that is handed an existing
handle passes that handle directly to fn, issues no transaction-control
action at all (no begin, no commit, no rollback), and its result is exactly
the result of fn. -/
theorem c6_existing_handle_delegation (mode : AccessMode)
    (beginOk commitOk rollbackOk : Bool) (fn : Nat → Option String)
    (newHandle q : Nat) (rest : List Nat) :
    runTransactionWithOpts mode beginOk commitOk rollbackOk fn newHandle (q :: rest) =
      { trace := [], res := fn q } := rfl

/-- Claim C7: a call to runTransactionWithOpts that opens its own
transaction issues the rollback as its final action regardless of outcome;
when fn succeeds the transaction is committed; when fn fails the wrapped
error is propagated and no commit is ever issued; when commit fails that
error is propagated; and the rollback outcome never influences the result. -/
theorem c7_own_transaction (mode : AccessMode) (commitOk rb rb' : Bool)
    (fn : Nat → Option String) (h : Nat) :
    (runTransactionWithOpts mode true commitOk rb fn h []).trace.getLast? =
        some .rollback ∧
    (fn h = none → commitOk = true →
      runTransactionWithOpts mode true commitOk rb fn h [] =
        { trace := [.beginTx mode, .commit, .rollback], res := none }) ∧
    (∀ e, fn h = some e →
      (runTransactionWithOpts mode true commitOk rb fn h []).res =
          some ("transaction function failed: " ++ e) ∧
        TxEvent.commit ∉ (runTransactionWithOpts mode true commitOk rb fn h []).trace) ∧
    (fn h = none → commitOk = false →
      (runTransactionWithOpts mode true commitOk rb fn h []).res =
        some "failed to commit transaction") ∧
    runTransactionWithOpts mode true commitOk rb fn h [] =
      runTransactionWithOpts mode true commitOk rb' fn h [] := by
  unfold runTransactionWithOpts
  cases hfn : fn h <;> cases commitOk <;> simp [hfn]

def okFn : Nat → Option String := fun _ => none

def errFn : Nat → Option String := fun _ => some "boom"

/-- Witness for C7 at concrete inputs: one succeeding fn, one failing fn. -/
theorem c7_own_transaction_witness :
    runTransactionWithOpts .readWrite true true true okFn 7 [] =
        { trace := [.beginTx .readWrite, .commit, .rollback], res := none } ∧
      (runTransactionWithOpts .readWrite true true true errFn 7 []).res =
        some ("transaction function failed: " ++ "boom") ∧
      TxEvent.commit ∉ (runTransactionWithOpts .readWrite true true true errFn 7 []).trace :=
  ⟨(c7_own_transaction .readWrite true true true okFn 7).2.1 rfl rfl,
   ((c7_own_transaction .readWrite true true true errFn 7).2.2.1 "boom" rfl).1,
   ((c7_own_transaction .readWrite true true true errFn 7).2.2.1 "boom" rfl).2⟩

/-- Claim C8 counterexample: constructing the manager runs the migrations
once (migration count one), and a reconnection triggered by a failed
health-check ping opens a new pool (generation two) but ALSO runs the
migration step a second time (migration count two), contradicting the claim
that migrations run only on first construction. -/
theorem c8_counterexample :
    newDatabase true true true = some ⟨1, 1⟩ ∧
    healthCheckPool false true true true ⟨1, 1⟩ = ⟨2, 2⟩ := ⟨rfl, rfl⟩

/-- Claim C8 (amended): the migration step runs on every connection
attempt that gets past configuration parsing and pool creation — at first
construction and again on every reconnection triggered by a failed
health-check ping — while a successful ping leaves the state untouched. -/
theorem c8_amended_migrations_on_reconnect (st : DBState)
    (parseOk poolOk migrateOk : Bool) (hparse : parseOk = true)
    (hpool : poolOk = true) :
    (healthCheckPool false parseOk poolOk migrateOk st).migrationRuns =
        st.migrationRuns + 1 ∧
    (∀ st', healthCheckPool true parseOk poolOk migrateOk st' = st') := by
  subst hparse hpool
  cases migrateOk <;> simp [healthCheckPool, connectAndMigratePool]

/-- Witness for the amended C8 at a concrete state. -/
theorem c8_amended_migrations_on_reconnect_witness :
    (healthCheckPool false true true true ⟨1, 1⟩).migrationRuns = 1 + 1 ∧
    (∀ st', healthCheckPool true true true true st' = st') :=
  c8_amended_migrations_on_reconnect ⟨1, 1⟩ true true true rfl rfl

/-- Oracle for C1 that answers the count query only when it is the one the
claim prescribes: the base query wrapped WITHOUT the pagination clause and
executed with the caller arguments only. -/
def c1Oracle : PgOracle Nat :=
  { queryRows := fun _ _ => .ok [10, 20]
    queryCount := fun q as =>
      if q = "SELECT COUNT(*) FROM (SELECT * FROM books) AS count_query" then
        (if as = [] then .ok 5
         else .error "count query was given the limit and offset arguments")
      else .error "count query text still contains the pagination clause" }

/-- Claim C1, checked against the code at the failing input: the count
query built by SelectRowsPageable wraps the content query INCLUDING the
appended pagination clause, it is executed with the limit and offset values
appended to the caller arguments, and a driver expecting the
claim-prescribed count query is never given it. -/
theorem c1_count_query_includes_pagination :
    countQueryOf (pagedQuery "SELECT * FROM books" []) =
      "SELECT COUNT(*) FROM (SELECT * FROM books LIMIT $1 OFFSET $2) AS count_query" ∧
    pageArgs [] ⟨0, 2, []⟩ = [DBValue.vint 2, DBValue.vint 0] ∧
    SelectRowsPageable c1Oracle ⟨0, 2, []⟩ "SELECT * FROM books" [] =
      .error
        "failed to get total elements: count query text still contains the pagination clause" :=
  ⟨rfl, rfl, rfl⟩

/-- Claim C2, checked against the code at the failing input: with one
caller-supplied argument the appended pagination clause still uses the
hard-coded first and second placeholders instead of the next free slots,
while the limit and offset values are appended as the second and third
arguments. -/
theorem c2_pagination_placeholders_hardcoded :
    pagedQuery "SELECT * FROM books WHERE title = $1" [] =
      "SELECT * FROM books WHERE title = $1 LIMIT $1 OFFSET $2" ∧
    pagedQuery "SELECT * FROM books WHERE title = $1" [] ≠
      "SELECT * FROM books WHERE title = $1 LIMIT $2 OFFSET $3" ∧
    pageArgs [DBValue.vother 0] ⟨0, 2, []⟩ =
      [DBValue.vother 0, DBValue.vint 2, DBValue.vint 0] :=
  ⟨rfl, by decide, rfl⟩

/-- Claim C3: SelectRow on a successful query fails with the not-found
error on zero rows, returns the decoded value on exactly one decodable row,
and fails with a decode error on a type mismatch or on two or more rows. -/
theorem c3_selectRow_cardinality {σ ρ : Type} (decode : σ → Except String ρ)
    (rows : List σ) :
    (rows = [] → SelectRow decode (.ok rows) = .error .notFound) ∧
    (∀ r v, rows = [r] → decode r = .ok v → SelectRow decode (.ok rows) = .ok v) ∧
    (∀ r e, rows = [r] → decode r = .error e →
      SelectRow decode (.ok rows) = .error (.decodeErr e)) ∧
    (2 ≤ rows.length → ∃ m, SelectRow decode (.ok rows) = .error (.decodeErr m)) := by
  refine ⟨?_, ?_, ?_, ?_⟩
  · rintro rfl; rfl
  · rintro r v rfl hd; simp [SelectRow, collectOneRow, hd]
  · rintro r e rfl hd; simp [SelectRow, collectOneRow, hd]
  · intro hlen
    rcases rows with _ | ⟨r1, _ | ⟨r2, rs⟩⟩
    · simp at hlen
    · simp at hlen
    · exact ⟨"expected exactly one row", rfl⟩

def c3decode : Nat → Except String Nat :=
  fun n => if n = 0 then .error "type mismatch" else .ok n

/-- Witness for C3 at concrete row lists of length zero, one and two. -/
theorem c3_selectRow_cardinality_witness :
    SelectRow c3decode (.ok []) = .error .notFound ∧
    SelectRow c3decode (.ok [2]) = .ok 2 ∧
    SelectRow c3decode (.ok [0]) = .error (.decodeErr "type mismatch") ∧
    (∃ m, SelectRow c3decode (.ok [1, 2]) = .error (.decodeErr m)) :=
  ⟨(c3_selectRow_cardinality c3decode []).1 rfl,
   (c3_selectRow_cardinality c3decode [2]).2.1 2 2 rfl rfl,
   (c3_selectRow_cardinality c3decode [0]).2.2.1 0 "type mismatch" rfl rfl,
   (c3_selectRow_cardinality c3decode [1, 2]).2.2.2 (by decide)⟩

theorem filter_contains_eq_of_sublist {s l : List String} (hsub : s.Sublist l)
    (hnd : l.Nodup) : l.filter (fun c => s.contains c) = s := by
  induction hsub with
  | slnil => rfl
  | @cons l₁ l₂ a hsub ih =>
    rw [List.nodup_cons] at hnd
    have hmem : a ∉ l₁ := fun hm => hnd.1 (hsub.subset hm)
    have hca : l₁.contains a = false := by simpa using hmem
    simp only [List.filter_cons, hca]
    simpa using ih hnd.2
  | @cons₂ l₁ l₂ a hsub ih =>
    rw [List.nodup_cons] at hnd
    have hcongr : ∀ x ∈ l₂, (a :: l₁).contains x = l₁.contains x := by
      intro x hx
      have hxa : x ≠ a := fun he => hnd.1 (he ▸ hx)
      simp [hxa]
    rw [List.filter_cons, if_pos (by simp : ((a :: l₁).contains a = true)),
      List.filter_congr hcongr, ih hnd.2]

theorem length_filter_add_length_filter_not {α : Type} (l : List α) (p : α → Bool) :
    (l.filter p).length + (l.filter (fun a => !(p a))).length = l.length := by
  induction l with
  | nil => rfl
  | cons a t ih => cases hp : p a <;> simp [List.filter_cons, hp] <;> omega

theorem insertPrimaryKeys_sublist (fields : List GoField) :
    (insertPrimaryKeys fields).Sublist (insertColumns fields) :=
  List.Sublist.map _ (List.filter_sublist _)

/-- Claim C4: for a struct with a table name, at least one mapped column
and at least one primary-key column, whose mapped column names form a set
(no duplicates), generateInsertQuery succeeds; when a non-key column
exists the UPDATE SET clause has exactly (mapped columns minus primary-key
columns) assignments, and when every mapped column is a primary key the
conflict action is DO NOTHING; the column list and the returned argument
slice are built from the mapped fields in the same declaration order, so
they correspond position by position. -/
theorem c4_generateInsertQuery (fields : List GoField)
    (htab : insertTableName fields ≠ "")
    (hmap : insertMappedFields fields ≠ [])
    (hpk : insertPrimaryKeys fields ≠ [])
    (hnd : (insertColumns fields).Nodup) :
    generateInsertQuery fields = .ok (insertQueryString fields, insertValues fields) ∧
    ((∃ c ∈ insertColumns fields, c ∉ insertPrimaryKeys fields) →
      (insertUpdateSet fields).length =
          (insertColumns fields).length - (insertPrimaryKeys fields).length ∧
        doClause fields = "DO UPDATE SET " ++
          goJoin ",\n" ((insertUpdateSet fields).map (fun c => c ++ " = EXCLUDED." ++ c))) ∧
    ((∀ c ∈ insertColumns fields, c ∈ insertPrimaryKeys fields) →
      doClause fields = "DO NOTHING") ∧
    insertColumns fields = (insertMappedFields fields).map GoField.dbTag ∧
    insertValues fields = (insertMappedFields fields).map GoField.value ∧
    (insertColumns fields).length = (insertValues fields).length := by
  refine ⟨?_, ?_, ?_, rfl, rfl, ?_⟩
  · unfold generateInsertQuery
    rw [if_neg htab, if_neg hpk]
  · rintro ⟨c, hc, hcn⟩
    have hcc : (insertPrimaryKeys fields).contains c = false := by simpa using hcn
    have hne : insertUpdateSet fields ≠ [] := by
      unfold insertUpdateSet
      intro h0
      have := (List.filter_eq_nil_iff.mp h0) c hc
      simp at this
      exact hcn this
    refine ⟨?_, ?_⟩
    · have hfeq :
          (insertColumns fields).filter
            (fun x => (insertPrimaryKeys fields).contains x) = insertPrimaryKeys fields :=
        filter_contains_eq_of_sublist (insertPrimaryKeys_sublist fields) hnd
      have hpart := length_filter_add_length_filter_not (insertColumns fields)
        (fun x => (insertPrimaryKeys fields).contains x)
      rw [hfeq] at hpart
      unfold insertUpdateSet
      omega
    · unfold doClause
      rw [if_pos hne]
  · intro hall
    have h0 : insertUpdateSet fields = [] := by
      unfold insertUpdateSet
      apply List.filter_eq_nil_iff.mpr
      intro c hc
      simpa using hall c hc
    unfold doClause
    rw [h0]
    simp
  · simp [insertColumns, insertValues]

def c4Fields : List GoField :=
  [⟨some "books b", "-", none, "", 0⟩,
   ⟨none, "id", none, "true", 1⟩,
   ⟨none, "title", none, "", 2⟩]

/-- Witness for C4 at a concrete three-field struct with one primary key
and one plain column. -/
theorem c4_generateInsertQuery_witness :
    generateInsertQuery c4Fields = .ok (insertQueryString c4Fields, insertValues c4Fields) ∧
    (insertUpdateSet c4Fields).length =
      (insertColumns c4Fields).length - (insertPrimaryKeys c4Fields).length := by
  have h := c4_generateInsertQuery c4Fields (by decide) (by decide) (by decide) (by decide)
  exact ⟨h.1, (h.2.1 ⟨"title", by decide, by decide⟩).1⟩

theorem selectField_skip (st : SelState) (f : GoField) (h1 : tableTagGet f = "")
    (h2 : f.dbTag = "-" ∨ queryTagGet f = "") : selectField st f = st := by
  unfold selectField
  rw [if_neg (by simp [h1])]
  rcases h2 with h2 | h2
  · rw [if_pos h2]
  · by_cases hd : f.dbTag = "-"
    · rw [if_pos hd]
    · rw [if_neg hd, if_neg (by simp [h2])]

theorem foldl_selectField_skip (pre : List GoField)
    (h : ∀ f ∈ pre, tableTagGet f = "" ∧ (f.dbTag = "-" ∨ queryTagGet f = "")) :
    ∀ st : SelState, pre.foldl selectField st = st := by
  induction pre with
  | nil => intro st; rfl
  | cons f t ih =>
    intro st
    rw [List.foldl_cons,
      selectField_skip st f (h f (by simp)).1 (h f (by simp)).2]
    exact ih (fun g hg => h g (by simp [hg])) st

theorem selectField_clauses_append (st : SelState) (f : GoField) :
    ∃ t, (selectField st f).clauses = st.clauses ++ t := by
  unfold selectField
  split
  · dsimp only
    split
    · exact ⟨_, rfl⟩
    · exact ⟨[], (List.append_nil _).symm⟩
  · split
    · exact ⟨[], (List.append_nil _).symm⟩
    · split
      · exact ⟨_, rfl⟩
      · exact ⟨[], (List.append_nil _).symm⟩

theorem foldl_selectField_clauses_append (l : List GoField) :
    ∀ st : SelState, ∃ t, (l.foldl selectField st).clauses = st.clauses ++ t := by
  induction l with
  | nil => intro st; exact ⟨[], (List.append_nil _).symm⟩
  | cons f r ih =>
    intro st
    obtain ⟨t1, h1⟩ := selectField_clauses_append st f
    obtain ⟨t2, h2⟩ := ih (selectField st f)
    exact ⟨t1 ++ t2, by rw [List.foldl_cons, h2, h1, List.append_assoc]⟩

theorem selectField_fromClause_ne (st : SelState) (f : GoField)
    (h : st.fromClause ≠ "") : (selectField st f).fromClause ≠ "" := by
  unfold selectField
  split
  · simpa using ‹tableTagGet f ≠ ""›
  · split
    · exact h
    · split
      · exact h
      · exact h

theorem foldl_selectField_fromClause_ne (l : List GoField) :
    ∀ st : SelState, st.fromClause ≠ "" → (l.foldl selectField st).fromClause ≠ "" := by
  induction l with
  | nil => intro st h; exact h
  | cons f r ih =>
    intro st h
    rw [List.foldl_cons]
    exact ih _ (selectField_fromClause_ne st f h)

theorem selectField_fromClause_of_no_table (st : SelState) (f : GoField)
    (h : tableTagGet f = "") : (selectField st f).fromClause = st.fromClause := by
  rw [selectField, if_neg (by simp [h])]
  split
  · rfl
  · split
    · rfl
    · rfl

theorem foldl_selectField_fromClause_of_no_table (l : List GoField)
    (h : ∀ f ∈ l, tableTagGet f = "") :
    ∀ st : SelState, (l.foldl selectField st).fromClause = st.fromClause := by
  induction l with
  | nil => intro st; rfl
  | cons f r ih =>
    intro st
    rw [List.foldl_cons, ih (fun g hg => h g (by simp [hg])),
      selectField_fromClause_of_no_table st f (h f (by simp))]

def c5BadFields : List GoField :=
  [⟨none, "cnt", some "(SELECT 1)", "", 0⟩,
   ⟨some "books b", "-", none, "", 1⟩]

/-- Claim C5 counterexample: a tagged struct whose computed-column field
precedes its table marker field is generated successfully, yet the first
selected item of the emitted query is the computed expression, not the
table alias wildcard. -/
theorem c5_counterexample :
    generateSelectQuery c5BadFields =
        .ok "SELECT\n  (SELECT 1) AS cnt,\n  b.*\nFROM books b" ∧
    (selectScan c5BadFields).clauses = ["(SELECT 1) AS cnt", "b.*"] ∧
    (selectScan c5BadFields).clauses.head? ≠
      some ((selectScan c5BadFields).tableAlias ++ ".*") :=
  ⟨rfl, rfl, by decide⟩

/-- Claim C5 (amended): for a tagged struct whose table marker field
carries an alias and precedes every clause-contributing field,
generateSelectQuery succeeds and the alias wildcard is the first selected
item; and for every struct with no table annotation at all it fails with
the mapping error. -/
theorem c5_amended_generateSelectQuery (pre rest : List GoField) (tf : GoField)
    (hpre : ∀ f ∈ pre, tableTagGet f = "" ∧ (f.dbTag = "-" ∨ queryTagGet f = ""))
    (nm a : String) (t : List String)
    (hparts : goSplit (tableTagGet tf) ' ' = nm :: a :: t)
    (ha : a ≠ "") (htag : tableTagGet tf ≠ "") :
    (∃ r, (selectScan (pre ++ tf :: rest)).clauses = (a ++ ".*") :: r) ∧
    (∃ q, generateSelectQuery (pre ++ tf :: rest) = .ok q) ∧
    (∀ gs : List GoField, (∀ f ∈ gs, tableTagGet f = "") →
      generateSelectQuery gs = .error "no table tag found in struct") := by
  have hna : newAliasOf ⟨[], "", ""⟩ tf = a := by
    unfold newAliasOf
    rw [hparts]
  have htf : selectField ⟨[], "", ""⟩ tf = ⟨[a ++ ".*"], tableTagGet tf, a⟩ := by
    unfold selectField
    rw [if_pos htag, hna]
    simp [ha]
  have hscan : selectScan (pre ++ tf :: rest) =
      rest.foldl selectField ⟨[a ++ ".*"], tableTagGet tf, a⟩ := by
    unfold selectScan
    rw [List.foldl_append, foldl_selectField_skip pre hpre, List.foldl_cons, htf]
  refine ⟨?_, ?_, ?_⟩
  · obtain ⟨r, hr⟩ := foldl_selectField_clauses_append rest ⟨[a ++ ".*"], tableTagGet tf, a⟩
    exact ⟨r, by rw [hscan, hr]; rfl⟩
  · have hne : (selectScan (pre ++ tf :: rest)).fromClause ≠ "" := by
      rw [hscan]
      exact foldl_selectField_fromClause_ne rest _ htag
    refine ⟨"SELECT\n  " ++ goJoin ",\n  " (selectScan (pre ++ tf :: rest)).clauses ++
      "\nFROM " ++ (selectScan (pre ++ tf :: rest)).fromClause, ?_⟩
    unfold generateSelectQuery
    rw [if_neg hne]
  · intro gs hgs
    unfold generateSelectQuery selectScan
    rw [if_pos (foldl_selectField_fromClause_of_no_table gs hgs ⟨[], "", ""⟩)]

/-- Witness for the amended C5 at a concrete struct: table marker first,
then one computed column. -/
theorem c5_amended_generateSelectQuery_witness :
    (∃ r, (selectScan [⟨some "books b", "-", none, "", 0⟩,
        ⟨none, "cnt", some "(SELECT 1)", "", 1⟩]).clauses = ("b" ++ ".*") :: r) ∧
    (∃ q, generateSelectQuery [⟨some "books b", "-", none, "", 0⟩,
        ⟨none, "cnt", some "(SELECT 1)", "", 1⟩] = .ok q) := by
  have h := c5_amended_generateSelectQuery []
    [⟨none, "cnt", some "(SELECT 1)", "", 1⟩] ⟨some "books b", "-", none, "", 0⟩
    (by simp) "books" "b" [] rfl (by decide) (by decide)
  exact ⟨h.1, h.2.1⟩

theorem tdiv_eq_ceil (t s : Int) (hs : 0 < s) (ht : 0 ≤ t) :
    Int.tdiv (t + s - 1) s = ⌈(t : ℚ) / (s : ℚ)⌉ := by
  rw [Int.tdiv_eq_ediv (by omega) (by omega)]
  have hid := Int.ediv_add_emod (t + s - 1) s
  have hr0 := Int.emod_nonneg (t + s - 1) (by omega : s ≠ 0)
  have hrlt := Int.emod_lt_of_pos (t + s - 1) hs
  set q := (t + s - 1) / s with hq
  have hle : t ≤ s * q := by linarith
  have hlt : s * q - s < t := by linarith
  have hsQ : (0 : ℚ) < (s : ℚ) := by exact_mod_cast hs
  rw [eq_comm, Int.ceil_eq_iff]
  constructor
  · rw [lt_div_iff₀ hsQ]
    have hc : (s : ℚ) * (q : ℚ) - (s : ℚ) < (t : ℚ) := by exact_mod_cast hlt
    linarith
  · rw [div_le_iff₀ hsQ]
    have hc : (t : ℚ) ≤ (s : ℚ) * (q : ℚ) := by exact_mod_cast hle
    linarith

/-- Claim C9: every page envelope successfully assembled by
SelectRowsPageable satisfies isFirst iff the page number is zero, isLast
iff the page number is at least totalPages minus one, isEmpty iff the
number of elements is zero, numberOfElements equal to the content length,
and — for a positive page size and the nonnegative count a SQL COUNT
returns — totalPages equal to the ceiling of totalElements over the page
size. -/
theorem c9_page_envelope {ρ : Type} (ora : PgOracle ρ) (pr : PageRequest)
    (query : String) (args : List DBValue) (p : Page ρ)
    (h : SelectRowsPageable ora pr query args = .ok p)
    (hs : 0 < pr.size) (ht : 0 ≤ p.totalElements) :
    p.isFirst = decide (p.number = 0) ∧
    p.isLast = decide (p.number ≥ p.totalPages - 1) ∧
    p.isEmpty = decide (p.numberOfElements = 0) ∧
    p.numberOfElements = (p.content.length : Int) ∧
    p.totalPages = ⌈(p.totalElements : ℚ) / (p.size : ℚ)⌉ := by
  unfold SelectRowsPageable at h
  dsimp only at h
  split at h
  · exact absurd h (by simp)
  · split at h
    · exact absurd h (by simp)
    · rw [Except.ok.injEq] at h
      subst h
      refine ⟨rfl, rfl, by simp, rfl, ?_⟩
      exact tdiv_eq_ceil _ pr.size hs ht

def c9Oracle : PgOracle Nat :=
  { queryRows := fun _ _ => .ok [10, 20]
    queryCount := fun _ _ => .ok 5 }

def p9 : Page Nat :=
  { content := [10, 20], pageable := ⟨0, 2, []⟩, totalElements := 5,
    totalPages := 3, number := 0, size := 2, numberOfElements := 2,
    isLast := false, isFirst := true, isEmpty := false }

/-- Witness for C9 at a concrete call: page zero of size two over five
matching rows, the instance of the testable property in the spec. -/
theorem c9_page_envelope_witness :
    p9.isFirst = decide (p9.number = 0) ∧
    p9.isLast = decide (p9.number ≥ p9.totalPages - 1) ∧
    p9.isEmpty = decide (p9.numberOfElements = 0) ∧
    p9.numberOfElements = (p9.content.length : Int) ∧
    p9.totalPages = ⌈(p9.totalElements : ℚ) / (p9.size : ℚ)⌉ :=
  c9_page_envelope c9Oracle ⟨0, 2, []⟩ "SELECT * FROM books" [] p9 rfl
    (by decide) (by decide)

end Zumi

section SanityChecks
open Zumi
example : goSplit "a,b" ',' = ["a", "b"] := rfl
example : goSplit "" ',' = [""] := rfl
example : goSplit "a," ',' = ["a", ""] := rfl
example : addSorting "Q" ["name,desc"] = "Q ORDER BY name desc" := rfl
example : addSorting "Q" ["", "name,desc"] = "Q, name desc" := rfl
example : addSorting "Q" ["title", "name,asc"] = "Q ORDER BY title, name asc" := rfl
example : pagedQuery "Q" [] = "Q LIMIT $1 OFFSET $2" := rfl
example :
    SelectRowsPageable ⟨fun _ _ => .ok [10, 20], fun _ _ => .ok 5⟩ ⟨0, 2, []⟩ "Q" [] =
      .ok { content := [10, 20], pageable := ⟨0, 2, []⟩, totalElements := 5,
            totalPages := 3, number := 0, size := 2, numberOfElements := 2,
            isLast := false, isFirst := true, isEmpty := false } := rfl
example :
    generateSelectQuery
      [⟨some "books b", "-", none, "", 0⟩,
       ⟨none, "id", none, "true", 1⟩,
       ⟨none, "cnt", some "(SELECT 1)", "", 2⟩] =
      .ok "SELECT\n  b.*,\n  (SELECT 1) AS cnt\nFROM books b" := rfl
example :
    generateInsertQuery
      [⟨some "books b", "-", none, "", 0⟩,
       ⟨none, "id", none, "true", 1⟩,
       ⟨none, "title", none, "", 2⟩] =
      .ok ("INSERT INTO books (id, title)\nVALUES ($1, $2)\nON CONFLICT(id)\nDO UPDATE SET title = EXCLUDED.title", [1, 2]) := rfl
example :
    generateInsertQuery
      [⟨some "books b", "-", none, "", 0⟩, ⟨none, "id", none, "true", 1⟩] =
      .ok ("INSERT INTO books (id)\nVALUES ($1)\nON CONFLICT(id)\nDO NOTHING", [1]) := rfl
example :
    runTransactionWithOpts .readWrite true true true (fun _ => none) 7 [3] =
      { trace := [], res := none } := rfl
example :
    runTransactionWithOpts .readWrite true true true (fun _ => some "boom") 7 [] =
      { trace := [.beginTx .readWrite, .rollback],
        res := some "transaction function failed: boom" } := rfl
example : newDatabase true true true = some ⟨1, 1⟩ := rfl
example : healthCheckPool false true true true ⟨1, 1⟩ = ⟨2, 2⟩ := rfl
example :
    SelectRow (fun n : Nat => if n = 0 then .error "type mismatch" else .ok n)
      (.ok [2]) = .ok 2 := rfl
example :
    SelectRow (fun n : Nat => if n = 0 then .error "type mismatch" else .ok n)
      (.ok []) = .error .notFound := rfl
end SanityChecks
